import Mathlib

/-!
Shallow embedding of the tool-dispatch and encoding engine of the
`siyuan-mcp` gateway (`src/main.rs`).

The Rust program translates tool invocations into HTTP POSTs against a
single backend.  Effectful library calls (HTTP transport, local file
reads, JSON parsing by `serde_json`) are modelled as explicit oracle
functions carried in an `Env` record; every handler returns, besides its
`Except` result, the list of observable effects (file reads and the
outbound HTTP requests) it performed, in order.
-/

namespace Siyuan

/-- JSON values as manipulated by the program (`serde_json::Value`).
Numbers are modelled as integers; `serde_json`'s `as_u64` yields a value
only for non-negative integral numbers, which the `asU64` accessor below
mirrors.  Objects are association lists with the first binding of a key
authoritative (serde maps have unique keys). -/
inductive Json where
  | null
  | bool (b : Bool)
  | num (n : Int)
  | str (s : String)
  | arr (elems : List Json)
  | obj (fields : List (String × Json))

/-- `Value::as_str`. -/
def Json.asStr : Json → Option String
  | .str s => some s
  | _ => none

/-- `Value::as_bool`. -/
def Json.asBool : Json → Option Bool
  | .bool b => some b
  | _ => none

/-- `Value::as_u64`: a value exactly for non-negative (integral) numbers. -/
def Json.asU64 : Json → Option Nat
  | .num n => if 0 ≤ n then some n.toNat else none
  | _ => none

/-- `Value::as_array`. -/
def Json.asArray : Json → Option (List Json)
  | .arr elems => some elems
  | _ => none

/-- `Map::get` on a JSON object's fields. -/
def jget (fields : List (String × Json)) (key : String) : Option Json :=
  (fields.find? (fun p => p.1 == key)).map (fun p => p.2)

/-- The two error constructors used by the program:
`McpError::invalid_params` (validation) and `McpError::internal_error`. -/
inductive McpError where
  | invalidParams (message : String)
  | internalError (message : String)
deriving DecidableEq

/-- One part of a `multipart/form-data` body: either a text field or a
file part (field name, filename, raw bytes). -/
inductive FormPart where
  | text (name value : String)
  | filePart (name filename : String) (content : List Nat)

/-- An outbound request body: JSON or multipart. -/
inductive RequestBody where
  | jsonBody (body : Json)
  | multipartBody (parts : List FormPart)

/-- An outbound HTTP request as the client builds it: method, full URL,
the `Authorization` header when present, and the body. -/
structure HttpRequest where
  method : String
  url : String
  authHeader : Option String
  body : RequestBody

/-- Outcome of the transport for a text-bodied exchange
(`req.send()` then `resp.text()`): the send may fail, reading the body
may fail after a status was received, or both succeed. -/
inductive NetOutcome where
  | sendError (message : String)
  | textError (status : Nat) (message : String)
  | ok (status : Nat) (text : String)

/-- Outcome of the transport for a bytes-bodied exchange
(`req.send()` then `resp.bytes()`), with the `Content-Type` header. -/
inductive NetOutcomeB where
  | sendError (message : String)
  | bytesError (status : Nat) (contentType : Option String) (message : String)
  | ok (status : Nat) (contentType : Option String) (bytes : List Nat)

/-- Observable effects of one dispatch: local file reads (attempted, in
order) and outbound HTTP calls. -/
inductive Event where
  | fileRead (path : String)
  | httpCall (req : HttpRequest)

/-- The effectful collaborators of the engine: the local file system
(`tokio::fs::read`), `serde_json` parsing of text and of bytes, and the
HTTP transport for text and for bytes responses. -/
structure Env where
  fs : String → Except String (List Nat)
  parse : String → Option Json
  parseB : List Nat → Option Json
  netT : HttpRequest → NetOutcome
  netB : HttpRequest → NetOutcomeB

/-- `StatusCode::is_success`: 200 ≤ status ≤ 299. -/
def isSuccess (status : Nat) : Bool := 200 ≤ status && status < 300

/-- `str::trim_end_matches('/')`: drop every trailing slash. -/
def trimEndSlashes (s : String) : String :=
  String.mk ((s.toList.reverse.dropWhile (fun c => c == '/')).reverse)

/-- The configured backend client (`SiyuanClient`): base URL and optional
token.  The reqwest connection pool and timeout live in the transport
oracle and carry no dispatch-visible state. -/
structure SiyuanClient where
  base_url : String
  token : Option String

/-- `SiyuanClient::new`: store the base URL with trailing slashes
stripped, and the token as given. -/
def SiyuanClient.new (base_url : String) (token : Option String) : SiyuanClient :=
  { base_url := trimEndSlashes base_url, token := token }

/-- Build the outbound request exactly as every `post_*` method does:
POST to `base_url ++ endpoint`, with `Authorization: Token <token>`
exactly when a token is configured. -/
def mkRequest (c : SiyuanClient) (endpoint : String) (body : RequestBody) : HttpRequest :=
  { method := "POST"
    url := c.base_url ++ endpoint
    authHeader := c.token.map (fun t => "Token " ++ t)
    body := body }

/-- Standard base64 alphabet (RFC 4648), as used by
`base64::engine::general_purpose::STANDARD`. -/
def b64Char (n : Nat) : Char :=
  "ABCDEFGHIJKLMNOPQRSTUVWXYZabcdefghijklmnopqrstuvwxyz0123456789+/".toList.getD n 'A'

/-- Standard base64 with `=` padding of a byte sequence. -/
def base64Encode : List Nat → String
  | [] => ""
  | [a] => String.mk [b64Char (a / 4), b64Char (a % 4 * 16), '=', '=']
  | [a, b] => String.mk [b64Char (a / 4), b64Char (a % 4 * 16 + b / 16), b64Char (b % 16 * 4), '=']
  | a :: b :: c :: rest =>
    String.mk [b64Char (a / 4), b64Char (a % 4 * 16 + b / 16),
      b64Char (b % 16 * 4 + c / 64), b64Char (c % 64)] ++ base64Encode rest

/-- Serialization of `Option<String>` into a JSON value (`json!` maps
`None` to `null`). -/
def jsonOfOptStr : Option String → Json
  | none => Json.null
  | some s => Json.str s

/-- `SiyuanClient::post_json_value`: send the JSON body, surface
transport failures as internal errors, parse the response text as JSON,
and fall back to `{status, body}` when the parse fails. -/
def post_json_value (c : SiyuanClient) (parse : String → Option Json)
    (endpoint : String) (body : Json) (net : HttpRequest → NetOutcome) :
    List Event × Except McpError Json :=
  let req := mkRequest c endpoint (RequestBody.jsonBody body)
  ([Event.httpCall req],
    match net req with
    | .sendError e => .error (.internalError e)
    | .textError _ e => .error (.internalError e)
    | .ok status text =>
      match parse text with
      | some value => .ok value
      | none => .ok (Json.obj [("status", Json.num (Int.ofNat status)), ("body", Json.str text)]))

/-- `SiyuanClient::post_multipart_value`: as `post_json_value` but with a
multipart body. -/
def post_multipart_value (c : SiyuanClient) (parse : String → Option Json)
    (endpoint : String) (parts : List FormPart) (net : HttpRequest → NetOutcome) :
    List Event × Except McpError Json :=
  let req := mkRequest c endpoint (RequestBody.multipartBody parts)
  ([Event.httpCall req],
    match net req with
    | .sendError e => .error (.internalError e)
    | .textError _ e => .error (.internalError e)
    | .ok status text =>
      match parse text with
      | some value => .ok value
      | none => .ok (Json.obj [("status", Json.num (Int.ofNat status)), ("body", Json.str text)]))

/-- The `{status, content_type, body_base64}` wrapper built by
`post_json_file`. -/
def fileWrapper (status : Nat) (contentType : Option String) (bytes : List Nat) : Json :=
  Json.obj [("status", Json.num (Int.ofNat status)),
    ("content_type", jsonOfOptStr contentType),
    ("body_base64", Json.str (base64Encode bytes))]

/-- `SiyuanClient::post_json_file`: send the JSON body and read the
response as bytes.  A success status is always base64-wrapped; a failure
status is first parsed as JSON and only wrapped when that parse fails. -/
def post_json_file (c : SiyuanClient) (parseB : List Nat → Option Json)
    (endpoint : String) (body : Json) (net : HttpRequest → NetOutcomeB) :
    List Event × Except McpError Json :=
  let req := mkRequest c endpoint (RequestBody.jsonBody body)
  ([Event.httpCall req],
    match net req with
    | .sendError e => .error (.internalError e)
    | .bytesError _ _ e => .error (.internalError e)
    | .ok status contentType bytes =>
      if isSuccess status then
        .ok (fileWrapper status contentType bytes)
      else
        match parseB bytes with
        | some value => .ok value
        | none => .ok (fileWrapper status contentType bytes))

/-- The four encoding strategies (`ToolKind`). -/
inductive ToolKind where
  | json
  | assetUpload
  | putFile
  | getFile
deriving DecidableEq

/-- A bound tool handler (`SiyuanTool`): the shared client plus the
matched spec's endpoint and strategy. -/
structure SiyuanTool where
  client : SiyuanClient
  endpoint : String
  kind : ToolKind

/-- `SiyuanTool::ensure_object`: an object is kept, `null` becomes the
empty object, anything else is a validation error. -/
def ensure_object (args : Json) : Except McpError Json :=
  match args with
  | .obj _ => .ok args
  | .null => .ok (Json.obj [])
  | _ => .error (.invalidParams "arguments must be a JSON object")

/-- `SiyuanTool::args_as_object`: like `ensure_object` but yielding the
field map. -/
def args_as_object (args : Json) : Except McpError (List (String × Json)) :=
  match args with
  | .obj fields => .ok fields
  | .null => .ok []
  | _ => .error (.invalidParams "arguments must be a JSON object")

/-- `SiyuanTool::required_string`. -/
def required_string (map : List (String × Json)) (key : String) : Except McpError String :=
  match (jget map key).bind Json.asStr with
  | some value => .ok value
  | none => .error (.invalidParams ("missing or invalid `" ++ key ++ "`"))

/-- `SiyuanTool::optional_string`. -/
def optional_string (map : List (String × Json)) (key : String) : Option String :=
  (jget map key).bind Json.asStr

/-- `SiyuanTool::optional_bool`. -/
def optional_bool (map : List (String × Json)) (key : String) : Option Bool :=
  (jget map key).bind Json.asBool

/-- `SiyuanTool::optional_u64`. -/
def optional_u64 (map : List (String × Json)) (key : String) : Option Nat :=
  (jget map key).bind Json.asU64

/-- The per-entry loop of `SiyuanTool::string_array`: collect entries as
strings, stopping at the first non-string one. -/
def strEntries (key : String) : List Json → Except McpError (List String)
  | [] => .ok []
  | v :: rest =>
    match v.asStr with
    | none => .error (.invalidParams ("invalid `" ++ key ++ "` entry"))
    | some s =>
      match strEntries key rest with
      | .ok out => .ok (s :: out)
      | .error e => .error e

/-- `SiyuanTool::string_array`: the field must be an array, and every
entry a string. -/
def string_array (map : List (String × Json)) (key : String) :
    Except McpError (List String) :=
  match (jget map key).bind Json.asArray with
  | none => .error (.invalidParams ("missing or invalid `" ++ key ++ "`"))
  | some values => strEntries key values

/-- `Path::file_name` of a Unix path, as used to pick a part's filename:
the final component, unless the path is empty, all slashes, or ends in
`..`. -/
def rustFileName (path : String) : Option String :=
  let comps := (path.splitOn "/").filter (fun c => !(c == "" || c == "."))
  match comps.getLast? with
  | none => none
  | some c => if c == ".." then none else some c

/-- `SiyuanTool::file_part`: read the local file (logging the attempt),
surface a failure as an internal error naming the path, and otherwise
yield the filename (final path segment, or `"file"`) with the bytes. -/
def file_part (env : Env) (file_path : String) :
    List Event × Except McpError (String × List Nat) :=
  ([Event.fileRead file_path],
    match env.fs file_path with
    | .error err => .error (.internalError ("read file " ++ file_path ++ ": " ++ err))
    | .ok bytes => .ok ((rustFileName file_path).getD "file", bytes))

/-- The per-file loop of `handle_asset_upload`: attach one `file[]` part
per input path, stopping at the first read failure. -/
def attach_asset_parts (env : Env) : List String → List Event × Except McpError (List FormPart)
  | [] => ([], .ok [])
  | fp :: rest =>
    match file_part env fp with
    | (ev, .error e) => (ev, .error e)
    | (ev, .ok (fn, bytes)) =>
      match attach_asset_parts env rest with
      | (ev2, .ok parts) => (ev ++ ev2, .ok (FormPart.filePart "file[]" fn bytes :: parts))
      | (ev2, .error e) => (ev ++ ev2, .error e)

/-- `SiyuanTool::handle_asset_upload`. -/
def handle_asset_upload (t : SiyuanTool) (env : Env) (args : Json) :
    List Event × Except McpError Json :=
  match args_as_object args with
  | .error e => ([], .error e)
  | .ok map =>
    let assets_dir := (optional_string map "assets_dir_path").getD "/assets/"
    match string_array map "files" with
    | .error e => ([], .error e)
    | .ok files =>
      match attach_asset_parts env files with
      | (ev, .error e) => (ev, .error e)
      | (ev, .ok parts) =>
        let r := post_multipart_value t.client env.parse t.endpoint
          (FormPart.text "assetsDirPath" assets_dir :: parts) env.netT
        (ev ++ r.1, r.2)

/-- `SiyuanTool::handle_put_file`. -/
def handle_put_file (t : SiyuanTool) (env : Env) (args : Json) :
    List Event × Except McpError Json :=
  match args_as_object args with
  | .error e => ([], .error e)
  | .ok map =>
    match required_string map "path" with
    | .error e => ([], .error e)
    | .ok path =>
      let is_dir := optional_bool map "is_dir"
      let mod_time := optional_u64 map "mod_time"
      let form := [FormPart.text "path" path] ++
        (match is_dir with
          | some value => [FormPart.text "isDir" (toString value)]
          | none => []) ++
        (match mod_time with
          | some value => [FormPart.text "modTime" (toString value)]
          | none => [])
      let is_dir_flag := is_dir.getD false
      if is_dir_flag then
        post_multipart_value t.client env.parse t.endpoint form env.netT
      else
        match required_string map "file_path" with
        | .error e => ([], .error e)
        | .ok file_path =>
          match file_part env file_path with
          | (ev, .error e) => (ev, .error e)
          | (ev, .ok (fn, bytes)) =>
            let r := post_multipart_value t.client env.parse t.endpoint
              (form ++ [FormPart.filePart "file" fn bytes]) env.netT
            (ev ++ r.1, r.2)

/-- `SiyuanTool::handle_get_file`. -/
def handle_get_file (t : SiyuanTool) (env : Env) (args : Json) :
    List Event × Except McpError Json :=
  match args_as_object args with
  | .error e => ([], .error e)
  | .ok map =>
    match required_string map "path" with
    | .error e => ([], .error e)
    | .ok path =>
      post_json_file t.client env.parseB t.endpoint
        (Json.obj [("path", Json.str path)]) env.netB

/-- `SiyuanTool::handle`: strategy selection. -/
def SiyuanTool.handle (t : SiyuanTool) (env : Env) (args : Json) :
    List Event × Except McpError Json :=
  match t.kind with
  | .json =>
    match ensure_object args with
    | .error e => ([], .error e)
    | .ok body => post_json_value t.client env.parse t.endpoint body env.netT
  | .assetUpload => handle_asset_upload t env args
  | .putFile => handle_put_file t env args
  | .getFile => handle_get_file t env args

/-- One registry entry (`ToolSpec`): identifier, endpoint path, strategy,
description, and the schema source text. -/
structure ToolSpec where
  name : String
  endpoint : String
  kind : ToolKind
  description : String
  schema : String
deriving DecidableEq

/-- The JSON-schema source texts (`SCHEMA_*` constants), verbatim. -/
def SCHEMA_EMPTY : String :=
  "\x7b\"type\":\"object\",\"properties\":\x7b\x7d,\"additionalProperties\":false\x7d"

def SCHEMA_NOTEBOOK_ID : String :=
  "\x7b\"type\":\"object\",\"properties\":\x7b\"notebook\":\x7b\"type\":\"string\",\"description\":\"Notebook ID\"\x7d\x7d,\"required\":[\"notebook\"],\"additionalProperties\":true\x7d"

def SCHEMA_NOTEBOOK_ID_NAME : String :=
  "\x7b\"type\":\"object\",\"properties\":\x7b\"notebook\":\x7b\"type\":\"string\",\"description\":\"Notebook ID\"\x7d,\"name\":\x7b\"type\":\"string\",\"description\":\"Notebook name\"\x7d\x7d,\"required\":[\"notebook\",\"name\"],\"additionalProperties\":true\x7d"

def SCHEMA_NOTEBOOK_CREATE : String :=
  "\x7b\"type\":\"object\",\"properties\":\x7b\"name\":\x7b\"type\":\"string\",\"description\":\"Notebook name\"\x7d\x7d,\"required\":[\"name\"],\"additionalProperties\":true\x7d"

def SCHEMA_NOTEBOOK_CONF : String :=
  "\x7b\"type\":\"object\",\"properties\":\x7b\"notebook\":\x7b\"type\":\"string\",\"description\":\"Notebook ID\"\x7d,\"conf\":\x7b\"type\":\"object\",\"description\":\"Notebook config object\"\x7d\x7d,\"required\":[\"notebook\",\"conf\"],\"additionalProperties\":true\x7d"

def SCHEMA_DOC_CREATE_MD : String :=
  "\x7b\"type\":\"object\",\"properties\":\x7b\"notebook\":\x7b\"type\":\"string\",\"description\":\"Notebook ID\"\x7d,\"path\":\x7b\"type\":\"string\",\"description\":\"Document path (hpath)\"\x7d,\"markdown\":\x7b\"type\":\"string\",\"description\":\"GFM markdown content\"\x7d\x7d,\"required\":[\"notebook\",\"path\",\"markdown\"],\"additionalProperties\":true\x7d"

def SCHEMA_DOC_RENAME : String :=
  "\x7b\"type\":\"object\",\"properties\":\x7b\"notebook\":\x7b\"type\":\"string\",\"description\":\"Notebook ID\"\x7d,\"path\":\x7b\"type\":\"string\",\"description\":\"Document path\"\x7d,\"title\":\x7b\"type\":\"string\",\"description\":\"New document title\"\x7d\x7d,\"required\":[\"notebook\",\"path\",\"title\"],\"additionalProperties\":true\x7d"

def SCHEMA_DOC_RENAME_BY_ID : String :=
  "\x7b\"type\":\"object\",\"properties\":\x7b\"id\":\x7b\"type\":\"string\",\"description\":\"Document ID\"\x7d,\"title\":\x7b\"type\":\"string\",\"description\":\"New document title\"\x7d\x7d,\"required\":[\"id\",\"title\"],\"additionalProperties\":true\x7d"

def SCHEMA_DOC_REMOVE : String :=
  "\x7b\"type\":\"object\",\"properties\":\x7b\"notebook\":\x7b\"type\":\"string\",\"description\":\"Notebook ID\"\x7d,\"path\":\x7b\"type\":\"string\",\"description\":\"Document path\"\x7d\x7d,\"required\":[\"notebook\",\"path\"],\"additionalProperties\":true\x7d"

def SCHEMA_ID_ONLY : String :=
  "\x7b\"type\":\"object\",\"properties\":\x7b\"id\":\x7b\"type\":\"string\",\"description\":\"Block or document ID\"\x7d\x7d,\"required\":[\"id\"],\"additionalProperties\":true\x7d"

def SCHEMA_DOC_MOVE : String :=
  "\x7b\"type\":\"object\",\"properties\":\x7b\"fromPaths\":\x7b\"type\":\"array\",\"items\":\x7b\"type\":\"string\"\x7d,\"description\":\"Source document paths\"\x7d,\"toNotebook\":\x7b\"type\":\"string\",\"description\":\"Target notebook ID\"\x7d,\"toPath\":\x7b\"type\":\"string\",\"description\":\"Target path\"\x7d\x7d,\"required\":[\"fromPaths\",\"toNotebook\",\"toPath\"],\"additionalProperties\":true\x7d"

def SCHEMA_DOC_MOVE_BY_ID : String :=
  "\x7b\"type\":\"object\",\"properties\":\x7b\"fromIDs\":\x7b\"type\":\"array\",\"items\":\x7b\"type\":\"string\"\x7d,\"description\":\"Source document IDs\"\x7d,\"toID\":\x7b\"type\":\"string\",\"description\":\"Target parent doc ID or notebook ID\"\x7d\x7d,\"required\":[\"fromIDs\",\"toID\"],\"additionalProperties\":true\x7d"

def SCHEMA_GET_HPATH_BY_PATH : String :=
  "\x7b\"type\":\"object\",\"properties\":\x7b\"notebook\":\x7b\"type\":\"string\",\"description\":\"Notebook ID\"\x7d,\"path\":\x7b\"type\":\"string\",\"description\":\"Document path\"\x7d\x7d,\"required\":[\"notebook\",\"path\"],\"additionalProperties\":true\x7d"

def SCHEMA_GET_IDS_BY_HPATH : String :=
  "\x7b\"type\":\"object\",\"properties\":\x7b\"path\":\x7b\"type\":\"string\",\"description\":\"Human-readable path\"\x7d,\"notebook\":\x7b\"type\":\"string\",\"description\":\"Notebook ID\"\x7d\x7d,\"required\":[\"path\",\"notebook\"],\"additionalProperties\":true\x7d"

def SCHEMA_BLOCK_INSERT : String :=
  "\x7b\"type\":\"object\",\"properties\":\x7b\"dataType\":\x7b\"type\":\"string\",\"description\":\"markdown or dom\"\x7d,\"data\":\x7b\"type\":\"string\",\"description\":\"Content to insert\"\x7d,\"nextID\":\x7b\"type\":\"string\",\"description\":\"Next block ID\"\x7d,\"previousID\":\x7b\"type\":\"string\",\"description\":\"Previous block ID\"\x7d,\"parentID\":\x7b\"type\":\"string\",\"description\":\"Parent block ID\"\x7d\x7d,\"required\":[\"dataType\",\"data\"],\"additionalProperties\":true\x7d"

def SCHEMA_BLOCK_PREPEND : String :=
  "\x7b\"type\":\"object\",\"properties\":\x7b\"dataType\":\x7b\"type\":\"string\",\"description\":\"markdown or dom\"\x7d,\"data\":\x7b\"type\":\"string\",\"description\":\"Content to insert\"\x7d,\"parentID\":\x7b\"type\":\"string\",\"description\":\"Parent block ID\"\x7d\x7d,\"required\":[\"dataType\",\"data\",\"parentID\"],\"additionalProperties\":true\x7d"

def SCHEMA_BLOCK_UPDATE : String :=
  "\x7b\"type\":\"object\",\"properties\":\x7b\"dataType\":\x7b\"type\":\"string\",\"description\":\"markdown or dom\"\x7d,\"data\":\x7b\"type\":\"string\",\"description\":\"Updated content\"\x7d,\"id\":\x7b\"type\":\"string\",\"description\":\"Block ID\"\x7d\x7d,\"required\":[\"dataType\",\"data\",\"id\"],\"additionalProperties\":true\x7d"

def SCHEMA_BLOCK_MOVE : String :=
  "\x7b\"type\":\"object\",\"properties\":\x7b\"id\":\x7b\"type\":\"string\",\"description\":\"Block ID\"\x7d,\"previousID\":\x7b\"type\":\"string\",\"description\":\"Previous block ID\"\x7d,\"parentID\":\x7b\"type\":\"string\",\"description\":\"Parent block ID\"\x7d\x7d,\"required\":[\"id\"],\"additionalProperties\":true\x7d"

def SCHEMA_BLOCK_TRANSFER_REF : String :=
  "\x7b\"type\":\"object\",\"properties\":\x7b\"fromID\":\x7b\"type\":\"string\",\"description\":\"Def block ID\"\x7d,\"toID\":\x7b\"type\":\"string\",\"description\":\"Target block ID\"\x7d,\"refIDs\":\x7b\"type\":\"array\",\"items\":\x7b\"type\":\"string\"\x7d,\"description\":\"Optional ref block IDs\"\x7d\x7d,\"required\":[\"fromID\",\"toID\"],\"additionalProperties\":true\x7d"

def SCHEMA_ATTR_SET : String :=
  "\x7b\"type\":\"object\",\"properties\":\x7b\"id\":\x7b\"type\":\"string\",\"description\":\"Block ID\"\x7d,\"attrs\":\x7b\"type\":\"object\",\"description\":\"Attributes map\"\x7d\x7d,\"required\":[\"id\",\"attrs\"],\"additionalProperties\":true\x7d"

def SCHEMA_SQL_QUERY : String :=
  "\x7b\"type\":\"object\",\"properties\":\x7b\"stmt\":\x7b\"type\":\"string\",\"description\":\"SQL statement\"\x7d\x7d,\"required\":[\"stmt\"],\"additionalProperties\":true\x7d"

def SCHEMA_TEMPLATE_RENDER : String :=
  "\x7b\"type\":\"object\",\"properties\":\x7b\"id\":\x7b\"type\":\"string\",\"description\":\"Document ID\"\x7d,\"path\":\x7b\"type\":\"string\",\"description\":\"Template file absolute path\"\x7d\x7d,\"required\":[\"id\",\"path\"],\"additionalProperties\":true\x7d"

def SCHEMA_TEMPLATE_RENDER_SPRIG : String :=
  "\x7b\"type\":\"object\",\"properties\":\x7b\"template\":\x7b\"type\":\"string\",\"description\":\"Template content\"\x7d\x7d,\"required\":[\"template\"],\"additionalProperties\":true\x7d"

def SCHEMA_FILE_PATH : String :=
  "\x7b\"type\":\"object\",\"properties\":\x7b\"path\":\x7b\"type\":\"string\",\"description\":\"Path under workspace\"\x7d\x7d,\"required\":[\"path\"],\"additionalProperties\":true\x7d"

def SCHEMA_FILE_PUT : String :=
  "\x7b\"type\":\"object\",\"properties\":\x7b\"path\":\x7b\"type\":\"string\",\"description\":\"Path under workspace\"\x7d,\"is_dir\":\x7b\"type\":\"boolean\",\"description\":\"Create directory only\"\x7d,\"mod_time\":\x7b\"type\":\"integer\",\"description\":\"Unix time (seconds)\"\x7d,\"file_path\":\x7b\"type\":\"string\",\"description\":\"Local file path to upload\"\x7d\x7d,\"required\":[\"path\"],\"additionalProperties\":true\x7d"

def SCHEMA_FILE_RENAME : String :=
  "\x7b\"type\":\"object\",\"properties\":\x7b\"path\":\x7b\"type\":\"string\",\"description\":\"Path under workspace\"\x7d,\"newPath\":\x7b\"type\":\"string\",\"description\":\"New path under workspace\"\x7d\x7d,\"required\":[\"path\",\"newPath\"],\"additionalProperties\":true\x7d"

def SCHEMA_FILE_READ_DIR : String :=
  "\x7b\"type\":\"object\",\"properties\":\x7b\"path\":\x7b\"type\":\"string\",\"description\":\"Directory path under workspace\"\x7d\x7d,\"required\":[\"path\"],\"additionalProperties\":true\x7d"

def SCHEMA_EXPORT_MD : String :=
  "\x7b\"type\":\"object\",\"properties\":\x7b\"id\":\x7b\"type\":\"string\",\"description\":\"Doc block ID\"\x7d\x7d,\"required\":[\"id\"],\"additionalProperties\":true\x7d"

def SCHEMA_EXPORT_RESOURCES : String :=
  "\x7b\"type\":\"object\",\"properties\":\x7b\"paths\":\x7b\"type\":\"array\",\"items\":\x7b\"type\":\"string\"\x7d,\"description\":\"Paths to export\"\x7d,\"name\":\x7b\"type\":\"string\",\"description\":\"Optional zip name\"\x7d\x7d,\"required\":[\"paths\"],\"additionalProperties\":true\x7d"

def SCHEMA_PANDOC : String :=
  "\x7b\"type\":\"object\",\"properties\":\x7b\"dir\":\x7b\"type\":\"string\",\"description\":\"Working directory name\"\x7d,\"args\":\x7b\"type\":\"array\",\"items\":\x7b\"type\":\"string\"\x7d,\"description\":\"Pandoc CLI args\"\x7d\x7d,\"required\":[\"dir\",\"args\"],\"additionalProperties\":true\x7d"

def SCHEMA_NOTIFY : String :=
  "\x7b\"type\":\"object\",\"properties\":\x7b\"msg\":\x7b\"type\":\"string\",\"description\":\"Message text\"\x7d,\"timeout\":\x7b\"type\":\"integer\",\"description\":\"Timeout in ms\"\x7d\x7d,\"required\":[\"msg\"],\"additionalProperties\":true\x7d"

def SCHEMA_NETWORK_FORWARD_PROXY : String :=
  "\x7b\"type\":\"object\",\"properties\":\x7b\"url\":\x7b\"type\":\"string\",\"description\":\"Target URL\"\x7d,\"method\":\x7b\"type\":\"string\",\"description\":\"HTTP method\"\x7d,\"timeout\":\x7b\"type\":\"integer\",\"description\":\"Timeout in ms\"\x7d,\"contentType\":\x7b\"type\":\"string\",\"description\":\"Content-Type\"\x7d,\"headers\":\x7b\"type\":\"array\",\"items\":\x7b\"type\":\"object\"\x7d,\"description\":\"Headers list\"\x7d,\"payload\":\x7b\"type\":\"object\",\"description\":\"Payload object or string\"\x7d,\"payloadEncoding\":\x7b\"type\":\"string\",\"description\":\"Payload encoding\"\x7d,\"responseEncoding\":\x7b\"type\":\"string\",\"description\":\"Response body encoding\"\x7d\x7d,\"required\":[\"url\"],\"additionalProperties\":true\x7d"

def SCHEMA_ASSET_UPLOAD : String :=
  "\x7b\"type\":\"object\",\"properties\":\x7b\"assets_dir_path\":\x7b\"type\":\"string\",\"description\":\"Target assets dir (e.g. /assets/)\"\x7d,\"files\":\x7b\"type\":\"array\",\"items\":\x7b\"type\":\"string\"\x7d,\"description\":\"Local file paths\"\x7d\x7d,\"required\":[\"files\"],\"additionalProperties\":true\x7d"

def TOOL_SPECS : List ToolSpec := [
  ToolSpec.mk "siyuan_notebook_ls" "/api/notebook/lsNotebooks" ToolKind.json
    "List notebooks. No parameters. Use to obtain notebook IDs." SCHEMA_EMPTY,
  ToolSpec.mk "siyuan_notebook_open" "/api/notebook/openNotebook" ToolKind.json
    "Open a notebook by ID." SCHEMA_NOTEBOOK_ID,
  ToolSpec.mk "siyuan_notebook_close" "/api/notebook/closeNotebook" ToolKind.json
    "Close a notebook by ID." SCHEMA_NOTEBOOK_ID,
  ToolSpec.mk "siyuan_notebook_rename" "/api/notebook/renameNotebook" ToolKind.json
    "Rename a notebook by ID." SCHEMA_NOTEBOOK_ID_NAME,
  ToolSpec.mk "siyuan_notebook_create" "/api/notebook/createNotebook" ToolKind.json
    "Create a new notebook." SCHEMA_NOTEBOOK_CREATE,
  ToolSpec.mk "siyuan_notebook_remove" "/api/notebook/removeNotebook" ToolKind.json
    "Remove a notebook by ID." SCHEMA_NOTEBOOK_ID,
  ToolSpec.mk "siyuan_notebook_get_conf" "/api/notebook/getNotebookConf" ToolKind.json
    "Fetch notebook configuration by ID." SCHEMA_NOTEBOOK_ID,
  ToolSpec.mk "siyuan_notebook_set_conf" "/api/notebook/setNotebookConf" ToolKind.json
    "Save notebook configuration by ID." SCHEMA_NOTEBOOK_CONF,
  ToolSpec.mk "siyuan_doc_create_md" "/api/filetree/createDocWithMd" ToolKind.json
    "Create a document with Markdown content." SCHEMA_DOC_CREATE_MD,
  ToolSpec.mk "siyuan_doc_rename" "/api/filetree/renameDoc" ToolKind.json
    "Rename a document by notebook + path." SCHEMA_DOC_RENAME,
  ToolSpec.mk "siyuan_doc_rename_by_id" "/api/filetree/renameDocByID" ToolKind.json
    "Rename a document by ID." SCHEMA_DOC_RENAME_BY_ID,
  ToolSpec.mk "siyuan_doc_remove" "/api/filetree/removeDoc" ToolKind.json
    "Remove a document by notebook + path." SCHEMA_DOC_REMOVE,
  ToolSpec.mk "siyuan_doc_remove_by_id" "/api/filetree/removeDocByID" ToolKind.json
    "Remove a document by ID." SCHEMA_ID_ONLY,
  ToolSpec.mk "siyuan_doc_move" "/api/filetree/moveDocs" ToolKind.json
    "Move documents by source paths to a target notebook/path." SCHEMA_DOC_MOVE,
  ToolSpec.mk "siyuan_doc_move_by_id" "/api/filetree/moveDocsByID" ToolKind.json
    "Move documents by IDs to a target parent ID or notebook ID." SCHEMA_DOC_MOVE_BY_ID,
  ToolSpec.mk "siyuan_doc_get_hpath_by_path" "/api/filetree/getHPathByPath" ToolKind.json
    "Get human-readable path from notebook + storage path." SCHEMA_GET_HPATH_BY_PATH,
  ToolSpec.mk "siyuan_doc_get_hpath_by_id" "/api/filetree/getHPathByID" ToolKind.json
    "Get human-readable path from block/document ID." SCHEMA_ID_ONLY,
  ToolSpec.mk "siyuan_doc_get_path_by_id" "/api/filetree/getPathByID" ToolKind.json
    "Get storage path and notebook ID from block/document ID." SCHEMA_ID_ONLY,
  ToolSpec.mk "siyuan_doc_get_ids_by_hpath" "/api/filetree/getIDsByHPath" ToolKind.json
    "Get IDs from human-readable path + notebook ID." SCHEMA_GET_IDS_BY_HPATH,
  ToolSpec.mk "siyuan_asset_upload" "/api/asset/upload" ToolKind.assetUpload
    "Upload assets from local files. Uses multipart. Params: assets_dir_path, files[]." SCHEMA_ASSET_UPLOAD,
  ToolSpec.mk "siyuan_block_insert" "/api/block/insertBlock" ToolKind.json
    "Insert blocks using nextID/previousID/parentID anchors." SCHEMA_BLOCK_INSERT,
  ToolSpec.mk "siyuan_block_prepend" "/api/block/prependBlock" ToolKind.json
    "Prepend blocks to parentID." SCHEMA_BLOCK_PREPEND,
  ToolSpec.mk "siyuan_block_append" "/api/block/appendBlock" ToolKind.json
    "Append blocks to parentID." SCHEMA_BLOCK_PREPEND,
  ToolSpec.mk "siyuan_block_update" "/api/block/updateBlock" ToolKind.json
    "Update a block by ID." SCHEMA_BLOCK_UPDATE,
  ToolSpec.mk "siyuan_block_delete" "/api/block/deleteBlock" ToolKind.json
    "Delete a block by ID." SCHEMA_ID_ONLY,
  ToolSpec.mk "siyuan_block_move" "/api/block/moveBlock" ToolKind.json
    "Move a block with previousID/parentID anchors." SCHEMA_BLOCK_MOVE,
  ToolSpec.mk "siyuan_block_fold" "/api/block/foldBlock" ToolKind.json
    "Fold a block by ID." SCHEMA_ID_ONLY,
  ToolSpec.mk "siyuan_block_unfold" "/api/block/unfoldBlock" ToolKind.json
    "Unfold a block by ID." SCHEMA_ID_ONLY,
  ToolSpec.mk "siyuan_block_get_kramdown" "/api/block/getBlockKramdown" ToolKind.json
    "Get block kramdown by ID." SCHEMA_ID_ONLY,
  ToolSpec.mk "siyuan_block_get_children" "/api/block/getChildBlocks" ToolKind.json
    "List child blocks by parent ID." SCHEMA_ID_ONLY,
  ToolSpec.mk "siyuan_block_transfer_ref" "/api/block/transferBlockRef" ToolKind.json
    "Transfer block references from one def block to another." SCHEMA_BLOCK_TRANSFER_REF,
  ToolSpec.mk "siyuan_attr_set" "/api/attr/setBlockAttrs" ToolKind.json
    "Set block attributes." SCHEMA_ATTR_SET,
  ToolSpec.mk "siyuan_attr_get" "/api/attr/getBlockAttrs" ToolKind.json
    "Get block attributes by ID." SCHEMA_ID_ONLY,
  ToolSpec.mk "siyuan_sql_query" "/api/query/sql" ToolKind.json
    "Execute SQL query against SiYuan database." SCHEMA_SQL_QUERY,
  ToolSpec.mk "siyuan_sql_flush" "/api/sqlite/flushTransaction" ToolKind.json
    "Flush the current SQLite transaction. No parameters." SCHEMA_EMPTY,
  ToolSpec.mk "siyuan_template_render" "/api/template/render" ToolKind.json
    "Render a template file for a document." SCHEMA_TEMPLATE_RENDER,
  ToolSpec.mk "siyuan_template_render_sprig" "/api/template/renderSprig" ToolKind.json
    "Render a Sprig template string." SCHEMA_TEMPLATE_RENDER_SPRIG,
  ToolSpec.mk "siyuan_file_get" "/api/file/getFile" ToolKind.getFile
    "Download a file. Returns body_base64 + content_type." SCHEMA_FILE_PATH,
  ToolSpec.mk "siyuan_file_put" "/api/file/putFile" ToolKind.putFile
    "Upload a file or create a directory (multipart). Params: path, is_dir, mod_time, file_path." SCHEMA_FILE_PUT,
  ToolSpec.mk "siyuan_file_remove" "/api/file/removeFile" ToolKind.json
    "Remove a file by workspace path." SCHEMA_FILE_PATH,
  ToolSpec.mk "siyuan_file_rename" "/api/file/renameFile" ToolKind.json
    "Rename a file by workspace path." SCHEMA_FILE_RENAME,
  ToolSpec.mk "siyuan_file_read_dir" "/api/file/readDir" ToolKind.json
    "List files in a directory by workspace path." SCHEMA_FILE_READ_DIR,
  ToolSpec.mk "siyuan_export_md" "/api/export/exportMdContent" ToolKind.json
    "Export a document as Markdown content by ID." SCHEMA_EXPORT_MD,
  ToolSpec.mk "siyuan_export_resources" "/api/export/exportResources" ToolKind.json
    "Export files/folders to a zip; returns zip path." SCHEMA_EXPORT_RESOURCES,
  ToolSpec.mk "siyuan_convert_pandoc" "/api/convert/pandoc" ToolKind.json
    "Run pandoc conversion in a temp directory." SCHEMA_PANDOC,
  ToolSpec.mk "siyuan_notify_msg" "/api/notification/pushMsg" ToolKind.json
    "Push a normal notification message." SCHEMA_NOTIFY,
  ToolSpec.mk "siyuan_notify_err" "/api/notification/pushErrMsg" ToolKind.json
    "Push an error notification message." SCHEMA_NOTIFY,
  ToolSpec.mk "siyuan_network_forward_proxy" "/api/network/forwardProxy" ToolKind.json
    "Forward proxy HTTP request through SiYuan." SCHEMA_NETWORK_FORWARD_PROXY,
  ToolSpec.mk "siyuan_system_boot_progress" "/api/system/bootProgress" ToolKind.json
    "Get system boot progress. No parameters." SCHEMA_EMPTY,
  ToolSpec.mk "siyuan_system_version" "/api/system/version" ToolKind.json
    "Get system version. No parameters." SCHEMA_EMPTY,
  ToolSpec.mk "siyuan_system_current_time" "/api/system/currentTime" ToolKind.json
    "Get system current time (ms). No parameters." SCHEMA_EMPTY]

/-- Lookup in the handler map built by `SiyuanServer::new`.  The map is a
`HashMap` filled by inserting every spec in table order, so on a
duplicate identifier the last insertion would win; hence lookup is the
last matching table entry. -/
def registryLookup (name : String) : Option ToolSpec :=
  TOOL_SPECS.reverse.find? (fun s => s.name == name)

/-- `SiyuanServer::handle_tool_call`: resolve the identifier and run the
bound handler (`SiyuanTool::new` copies the spec's endpoint and kind). -/
def handle_tool_call (client : SiyuanClient) (env : Env) (name : String) (args : Json) :
    List Event × Except McpError Json :=
  match registryLookup name with
  | none => ([], .error (.invalidParams ("unknown tool: " ++ name)))
  | some spec =>
    SiyuanTool.handle { client := client, endpoint := spec.endpoint, kind := spec.kind } env args


/-- The optional `isDir` text field of `handle_put_file`'s form, present
exactly when the arguments carry a boolean `is_dir`. -/
def isDirParts (map : List (String × Json)) : List FormPart :=
  match optional_bool map "is_dir" with
  | some value => [FormPart.text "isDir" (toString value)]
  | none => []

/-- The optional `modTime` text field of `handle_put_file`'s form,
present exactly when the arguments carry a non-negative integer
`mod_time`. -/
def modTimeParts (map : List (String × Json)) : List FormPart :=
  match optional_u64 map "mod_time" with
  | some value => [FormPart.text "modTime" (toString value)]
  | none => []


/-! Concrete instances used to exercise the theorems on closed inputs. -/

/-- A concrete environment: one readable file, a JSON parser that never
succeeds, and transports answering 200. -/
def envW : Env where
  fs := fun p => if p == "ok.bin" then Except.ok [77, 97] else Except.error "denied"
  parse := fun _ => none
  parseB := fun _ => none
  netT := fun _ => NetOutcome.ok 200 "resp"
  netB := fun _ => NetOutcomeB.ok 200 none [77]

/-- A concrete configured client. -/
def clientW : SiyuanClient := SiyuanClient.new "http://127.0.0.1:6806/" (some "tok")

/-- Claim C5: for every tool identifier not present in the registry,
dispatch returns a validation error whose message names that identifier,
and performs no effect at all (in particular no HTTP call). -/
theorem unknown_tool_rejected (name : String) (h : registryLookup name = none)
    (client : SiyuanClient) (env : Env) (args : Json) :
    handle_tool_call client env name args =
      ([], .error (.invalidParams ("unknown tool: " ++ name))) := by
  simp [handle_tool_call, h]

/-- Witness for C5 at the concrete identifier `siyuan_bogus`. -/
theorem unknown_tool_rejected_witness :
    handle_tool_call clientW envW "siyuan_bogus" Json.null =
      ([], .error (.invalidParams ("unknown tool: " ++ "siyuan_bogus"))) :=
  unknown_tool_rejected "siyuan_bogus" (by decide) clientW envW Json.null

/-- Claim C6: for the PlainJson strategy, a JSON-object argument is
forwarded verbatim as the outbound JSON request body, and a `null`
argument behaves exactly as the empty object. -/
theorem plain_json_forwards_object (c : SiyuanClient) (endpoint : String) (env : Env)
    (map : List (String × Json)) :
    SiyuanTool.handle ⟨c, endpoint, ToolKind.json⟩ env (Json.obj map) =
        post_json_value c env.parse endpoint (Json.obj map) env.netT ∧
    (SiyuanTool.handle ⟨c, endpoint, ToolKind.json⟩ env (Json.obj map)).1 =
        [Event.httpCall (mkRequest c endpoint (RequestBody.jsonBody (Json.obj map)))] ∧
    SiyuanTool.handle ⟨c, endpoint, ToolKind.json⟩ env Json.null =
        SiyuanTool.handle ⟨c, endpoint, ToolKind.json⟩ env (Json.obj []) :=
  ⟨rfl, rfl, rfl⟩

/-- Claim C7: for the PlainJson strategy, an argument that is neither an
object nor `null` is rejected with the validation message
`arguments must be a JSON object`, with no effect performed. -/
theorem plain_json_rejects_nonobject (c : SiyuanClient) (endpoint : String) (env : Env)
    (args : Json) (hobj : ∀ fields, args ≠ Json.obj fields) (hnull : args ≠ Json.null) :
    SiyuanTool.handle ⟨c, endpoint, ToolKind.json⟩ env args =
      ([], .error (.invalidParams "arguments must be a JSON object")) := by
  cases args with
  | null => exact absurd rfl hnull
  | obj fields => exact absurd rfl (hobj fields)
  | bool b => rfl
  | num n => rfl
  | str s => rfl
  | arr elems => rfl

/-- Witness for C7 at the concrete argument `"a string"`. -/
theorem plain_json_rejects_nonobject_witness :
    SiyuanTool.handle ⟨clientW, "/api/query/sql", ToolKind.json⟩ envW (Json.str "a string") =
      ([], .error (.invalidParams "arguments must be a JSON object")) :=
  plain_json_rejects_nonobject clientW "/api/query/sql" envW (Json.str "a string")
    (fun _ h => Json.noConfusion h) (fun h => Json.noConfusion h)

set_option maxRecDepth 20000 in
/-- Claim C8: no two entries of the registry table share an identifier,
and lookup of any registered identifier returns exactly that entry's
data (the registry is pure data, never mutated). -/
theorem registry_identifiers_unique :
    (TOOL_SPECS.map (fun s => s.name)).Nodup ∧
    ∀ s ∈ TOOL_SPECS, registryLookup s.name = some s := by
  constructor
  · decide
  · decide

/-- Claim C1: for the BinaryDownload transfer, a success status always
yields the `{status, content_type, body_base64}` wrapper with the
standard base64 of the raw bytes — for every byte sequence, whatever the
byte-level parser would say — while a failure status yields the parsed
JSON body when that parse succeeds and the same wrapper otherwise. -/
theorem binary_download_encoding
    (c : SiyuanClient) (parseB : List Nat → Option Json) (endpoint : String) (body : Json)
    (net : HttpRequest → NetOutcomeB) (status : Nat) (ct : Option String) (bytes : List Nat)
    (hnet : net (mkRequest c endpoint (RequestBody.jsonBody body)) =
      NetOutcomeB.ok status ct bytes) :
    (isSuccess status = true →
      (post_json_file c parseB endpoint body net).2 = .ok (fileWrapper status ct bytes)) ∧
    (isSuccess status = false →
      (post_json_file c parseB endpoint body net).2 =
        match parseB bytes with
        | some value => .ok value
        | none => .ok (fileWrapper status ct bytes)) := by
  constructor <;> intro hs <;> simp [post_json_file, hnet, hs]

/-- Witness for C1: a 200 response with bytes `[77, 97]` (text `"Ma"`)
is wrapped as base64 `"TWE="`. -/
theorem binary_download_encoding_witness :
    (post_json_file clientW (fun _ => some (Json.str "parsed")) "/api/file/getFile"
      (Json.obj [("path", Json.str "/x")])
      (fun _ => NetOutcomeB.ok 200 (some "text/plain") [77, 97])).2 =
      .ok (Json.obj [("status", Json.num 200),
        ("content_type", Json.str "text/plain"),
        ("body_base64", Json.str "TWE=")]) := by
  have h := (binary_download_encoding clientW (fun _ => some (Json.str "parsed"))
    "/api/file/getFile" (Json.obj [("path", Json.str "/x")])
    (fun _ => NetOutcomeB.ok 200 (some "text/plain") [77, 97])
    200 (some "text/plain") [77, 97] rfl).1 rfl
  simpa [fileWrapper, jsonOfOptStr] using h

/-- Claim C2: for the JSON and multipart transfers, once the HTTP
exchange itself succeeded the result is always `Ok`, whatever the status
and body: the parsed JSON body when it parses, the `{status, body}`
wrapper otherwise. -/
theorem transport_success_never_error
    (c : SiyuanClient) (parse : String → Option Json) (endpoint : String) (body : Json)
    (parts : List FormPart) (net : HttpRequest → NetOutcome) (status : Nat) (text : String) :
    (net (mkRequest c endpoint (RequestBody.jsonBody body)) = NetOutcome.ok status text →
      (post_json_value c parse endpoint body net).2 =
        .ok (match parse text with
             | some value => value
             | none => Json.obj [("status", Json.num (Int.ofNat status)),
                 ("body", Json.str text)])) ∧
    (net (mkRequest c endpoint (RequestBody.multipartBody parts)) = NetOutcome.ok status text →
      (post_multipart_value c parse endpoint parts net).2 =
        .ok (match parse text with
             | some value => value
             | none => Json.obj [("status", Json.num (Int.ofNat status)),
                 ("body", Json.str text)])) := by
  constructor <;> intro h <;>
    simp only [post_json_value, post_multipart_value, h] <;>
    cases parse text <;> rfl

/-- Witness for C2: a 404 response whose body does not parse as JSON is
returned as the `Ok` wrapper `{status: 404, body: "nope"}`. -/
theorem transport_success_never_error_witness :
    (post_json_value clientW (fun _ => none) "/api/query/sql" (Json.obj [])
      (fun _ => NetOutcome.ok 404 "nope")).2 =
      .ok (Json.obj [("status", Json.num 404), ("body", Json.str "nope")]) :=
  (transport_success_never_error clientW (fun _ => none) "/api/query/sql" (Json.obj [])
    [] (fun _ => NetOutcome.ok 404 "nope") 404 "nope").1 rfl


/-- Unfolding of `handle_put_file` on an object argument whose `path`
extraction succeeds. -/
theorem handle_put_file_eq (t : SiyuanTool) (env : Env) (map : List (String × Json)) (p : String)
    (hp : required_string map "path" = .ok p) :
    handle_put_file t env (Json.obj map) =
      (if (optional_bool map "is_dir").getD false then
        post_multipart_value t.client env.parse t.endpoint
          ([FormPart.text "path" p] ++ isDirParts map ++ modTimeParts map) env.netT
      else
        match required_string map "file_path" with
        | .error e => ([], .error e)
        | .ok file_path =>
          match file_part env file_path with
          | (ev, .error e) => (ev, .error e)
          | (ev, .ok (fn, bytes)) =>
            let r := post_multipart_value t.client env.parse t.endpoint
              ([FormPart.text "path" p] ++ isDirParts map ++ modTimeParts map ++
                [FormPart.filePart "file" fn bytes]) env.netT
            (ev ++ r.1, r.2)) := by
  simp only [handle_put_file, args_as_object, hp, isDirParts, modTimeParts, List.append_assoc]

/-- Claim C3: for `handle_put_file` with a string `path` argument:
`is_dir = true` sends only the metadata form and never touches a file;
with `is_dir` absent or false a string `file_path` is required (its
absence is a validation error issued with no effect), a failed read is
an internal error naming the path, and a successful read attaches
exactly one file part named `file`. -/
theorem put_file_strategy
    (t : SiyuanTool) (env : Env) (map : List (String × Json)) (p : String)
    (hpath : jget map "path" = some (Json.str p)) :
    (jget map "is_dir" = some (Json.bool true) →
      handle_put_file t env (Json.obj map) =
        post_multipart_value t.client env.parse t.endpoint
          ([FormPart.text "path" p, FormPart.text "isDir" "true"] ++ modTimeParts map)
          env.netT ∧
      ∀ fp, Event.fileRead fp ∉ (handle_put_file t env (Json.obj map)).1) ∧
    ((optional_bool map "is_dir" = none ∨ optional_bool map "is_dir" = some false) →
      ((jget map "file_path").bind Json.asStr = none →
        handle_put_file t env (Json.obj map) =
          ([], .error (.invalidParams "missing or invalid `file_path`"))) ∧
      (∀ fp msg, (jget map "file_path").bind Json.asStr = some fp →
        env.fs fp = .error msg →
        handle_put_file t env (Json.obj map) =
          ([Event.fileRead fp],
            .error (.internalError ("read file " ++ fp ++ ": " ++ msg)))) ∧
      (∀ fp bytes, (jget map "file_path").bind Json.asStr = some fp →
        env.fs fp = .ok bytes →
        handle_put_file t env (Json.obj map) =
          (Event.fileRead fp ::
            (post_multipart_value t.client env.parse t.endpoint
              ([FormPart.text "path" p] ++ isDirParts map ++ modTimeParts map ++
                [FormPart.filePart "file" ((rustFileName fp).getD "file") bytes])
              env.netT).1,
            (post_multipart_value t.client env.parse t.endpoint
              ([FormPart.text "path" p] ++ isDirParts map ++ modTimeParts map ++
                [FormPart.filePart "file" ((rustFileName fp).getD "file") bytes])
              env.netT).2))) := by
  have hp : required_string map "path" = Except.ok p := by
    unfold required_string
    rw [hpath]
    rfl
  rw [handle_put_file_eq t env map p hp]
  constructor
  · intro hdir
    have hob : optional_bool map "is_dir" = some true := by
      unfold optional_bool
      rw [hdir]
      rfl
    constructor
    · simp only [hob, isDirParts, Option.getD_some, if_pos]
      rfl
    · intro fp
      simp [hob, post_multipart_value]
  · intro hb
    have hflag : (optional_bool map "is_dir").getD false = false := by
      rcases hb with h | h <;> rw [h] <;> rfl
    rw [hflag]
    refine ⟨?_, ?_, ?_⟩
    · intro hfp
      have hrf : required_string map "file_path" =
          Except.error (McpError.invalidParams "missing or invalid `file_path`") := by
        unfold required_string
        rw [hfp]
        rfl
      simp [hrf]
    · intro fp msg hfp hfs
      have hrf : required_string map "file_path" = Except.ok fp := by
        unfold required_string
        rw [hfp]
      have hfpart : file_part env fp =
          ([Event.fileRead fp],
            .error (.internalError ("read file " ++ fp ++ ": " ++ msg))) := by
        unfold file_part
        rw [hfs]
      simp [hrf, hfpart]
    · intro fp bytes hfp hfs
      have hrf : required_string map "file_path" = Except.ok fp := by
        unfold required_string
        rw [hfp]
      have hfpart : file_part env fp =
          ([Event.fileRead fp], .ok ((rustFileName fp).getD "file", bytes)) := by
        unfold file_part
        rw [hfs]
      simp [hrf, hfpart]

/-- Witness for C3: with `is_dir = true` and no `file_path`, the put-file
handler sends the metadata form and reads nothing. -/
theorem put_file_strategy_witness :
    handle_put_file ⟨clientW, "/api/file/putFile", ToolKind.putFile⟩ envW
      (Json.obj [("path", Json.str "/data/x"), ("is_dir", Json.bool true)]) =
      post_multipart_value clientW envW.parse "/api/file/putFile"
        ([FormPart.text "path" "/data/x", FormPart.text "isDir" "true"] ++
          modTimeParts [("path", Json.str "/data/x"), ("is_dir", Json.bool true)])
        envW.netT :=
  ((put_file_strategy ⟨clientW, "/api/file/putFile", ToolKind.putFile⟩ envW
    [("path", Json.str "/data/x"), ("is_dir", Json.bool true)] "/data/x" rfl).1 rfl).1


/-- Every error of the entry loop of `string_array` is a validation
error. -/
theorem strEntries_error_shape (key : String) (vs : List Json) :
    ∀ e, strEntries key vs = .error e → ∃ msg, e = .invalidParams msg := by
  induction vs with
  | nil => intro e h; simp [strEntries] at h
  | cons v rest ih =>
    intro e h
    cases hv : v.asStr with
    | none =>
      simp [strEntries, hv] at h
      exact ⟨_, h.symm⟩
    | some s =>
      cases hr : strEntries key rest with
      | ok out => simp [strEntries, hv, hr] at h
      | error e2 =>
        simp [strEntries, hv, hr] at h
        obtain ⟨msg, hm⟩ := ih e2 hr
        exact ⟨msg, by simp_all⟩

/-- When some entry of the list is not a string, the entry loop of
`string_array` fails with the fixed validation message. -/
theorem strEntries_error_of_mem (key : String) (vs : List Json)
    (h : ∃ v ∈ vs, v.asStr = none) :
    strEntries key vs = .error (.invalidParams ("invalid `" ++ key ++ "` entry")) := by
  induction vs with
  | nil => simp at h
  | cons v rest ih =>
    rcases h with ⟨w, hw, hnone⟩
    rcases List.mem_cons.mp hw with h1 | h2
    · subst h1
      simp [strEntries, hnone]
    · cases hv : v.asStr with
      | none => simp [strEntries, hv]
      | some s =>
        have hrest := ih ⟨w, h2, hnone⟩
        simp [strEntries, hv, hrest]

/-- Every error of `string_array` is a validation error. -/
theorem string_array_error_shape (map : List (String × Json)) (key : String) (e : McpError)
    (h : string_array map key = .error e) : ∃ msg, e = .invalidParams msg := by
  unfold string_array at h
  cases ha : (jget map key).bind Json.asArray with
  | none =>
    rw [ha] at h
    exact ⟨_, (Except.error.injEq _ _ |>.mp h).symm⟩
  | some values =>
    rw [ha] at h
    exact strEntries_error_shape key values e h

/-- Claim C4: for `handle_asset_upload`, an omitted `assets_dir_path`
defaults the `assetsDirPath` text field to `/assets/`, and the `files`
field must be an array of strings: a missing field, a non-array value,
or a non-string entry each yield a validation error with no HTTP call
performed. -/
theorem asset_upload_validation (t : SiyuanTool) (env : Env) (map : List (String × Json)) :
    (∀ files ev parts, jget map "assets_dir_path" = none →
      string_array map "files" = .ok files →
      attach_asset_parts env files = (ev, .ok parts) →
      handle_asset_upload t env (Json.obj map) =
        (ev ++ (post_multipart_value t.client env.parse t.endpoint
            (FormPart.text "assetsDirPath" "/assets/" :: parts) env.netT).1,
          (post_multipart_value t.client env.parse t.endpoint
            (FormPart.text "assetsDirPath" "/assets/" :: parts) env.netT).2)) ∧
    (∀ e, string_array map "files" = .error e →
      handle_asset_upload t env (Json.obj map) = ([], .error e) ∧
      ∃ msg, e = .invalidParams msg) ∧
    (jget map "files" = none →
      string_array map "files" =
        .error (.invalidParams ("missing or invalid `" ++ "files" ++ "`"))) ∧
    (∀ v, jget map "files" = some v → Json.asArray v = none →
      string_array map "files" =
        .error (.invalidParams ("missing or invalid `" ++ "files" ++ "`"))) ∧
    (∀ vs, jget map "files" = some (Json.arr vs) → (∃ v ∈ vs, Json.asStr v = none) →
      string_array map "files" =
        .error (.invalidParams ("invalid `" ++ "files" ++ "` entry"))) := by
  refine ⟨?_, ?_, ?_, ?_, ?_⟩
  · intro files ev parts ha hfiles hattach
    have hos : optional_string map "assets_dir_path" = none := by
      unfold optional_string
      rw [ha]
      rfl
    simp [handle_asset_upload, args_as_object, hos, hfiles, hattach]
  · intro e he
    refine ⟨?_, string_array_error_shape map "files" e he⟩
    simp [handle_asset_upload, args_as_object, he]
  · intro hn
    unfold string_array
    rw [hn]
    rfl
  · intro v hv hna
    unfold string_array
    rw [hv, Option.some_bind, hna]
  · intro vs hv hex
    unfold string_array
    rw [hv]
    exact strEntries_error_of_mem "files" vs hex

/-- Witness for C4: `files: [123]` is rejected as a validation error with
no effect performed. -/
theorem asset_upload_validation_witness :
    handle_asset_upload ⟨clientW, "/api/asset/upload", ToolKind.assetUpload⟩ envW
      (Json.obj [("files", Json.arr [Json.num 123])]) =
      ([], .error (.invalidParams ("invalid `" ++ "files" ++ "` entry"))) :=
  ((asset_upload_validation ⟨clientW, "/api/asset/upload", ToolKind.assetUpload⟩ envW
    [("files", Json.arr [Json.num 123])]).2.1
    (.invalidParams ("invalid `" ++ "files" ++ "` entry")) rfl).1


/-- Claim C10: wrong-typed optional fields are silently treated as
absent, never rejected.  A non-boolean `is_dir` or non-integer
`mod_time` merely omits the corresponding form field (a non-boolean
`is_dir` makes `file_path` required, as if `is_dir` were absent), and a
non-string `assets_dir_path` falls back to the default `/assets/`; none
of these produces a validation error of its own. -/
theorem wrong_typed_optionals_ignored :
    (∀ (t : SiyuanTool) (env : Env) (map : List (String × Json)) (v : Json) (p : String),
      jget map "path" = some (Json.str p) →
      jget map "is_dir" = some v → Json.asBool v = none →
      (jget map "file_path").bind Json.asStr = none →
      handle_put_file t env (Json.obj map) =
        ([], .error (.invalidParams "missing or invalid `file_path`"))) ∧
    (∀ (t : SiyuanTool) (env : Env) (map : List (String × Json)) (vd vm : Json)
        (p fp : String) (bytes : List Nat),
      jget map "path" = some (Json.str p) →
      jget map "is_dir" = some vd → Json.asBool vd = none →
      jget map "mod_time" = some vm → Json.asU64 vm = none →
      (jget map "file_path").bind Json.asStr = some fp →
      env.fs fp = .ok bytes →
      handle_put_file t env (Json.obj map) =
        (Event.fileRead fp ::
          (post_multipart_value t.client env.parse t.endpoint
            [FormPart.text "path" p,
              FormPart.filePart "file" ((rustFileName fp).getD "file") bytes] env.netT).1,
          (post_multipart_value t.client env.parse t.endpoint
            [FormPart.text "path" p,
              FormPart.filePart "file" ((rustFileName fp).getD "file") bytes] env.netT).2)) ∧
    (∀ (t : SiyuanTool) (env : Env) (map : List (String × Json)) (v : Json)
        (files : List String) (ev : List Event) (parts : List FormPart),
      jget map "assets_dir_path" = some v → Json.asStr v = none →
      string_array map "files" = .ok files →
      attach_asset_parts env files = (ev, .ok parts) →
      handle_asset_upload t env (Json.obj map) =
        (ev ++ (post_multipart_value t.client env.parse t.endpoint
            (FormPart.text "assetsDirPath" "/assets/" :: parts) env.netT).1,
          (post_multipart_value t.client env.parse t.endpoint
            (FormPart.text "assetsDirPath" "/assets/" :: parts) env.netT).2)) := by
  refine ⟨?_, ?_, ?_⟩
  · intro t env map v p hpath hid hnb hfp
    have hp : required_string map "path" = Except.ok p := by
      unfold required_string
      rw [hpath]
      rfl
    have hob : optional_bool map "is_dir" = none := by
      unfold optional_bool
      rw [hid, Option.some_bind, hnb]
    have hrf : required_string map "file_path" =
        Except.error (McpError.invalidParams "missing or invalid `file_path`") := by
      unfold required_string
      rw [hfp]
      rfl
    rw [handle_put_file_eq t env map p hp]
    simp [hob, hrf]
  · intro t env map vd vm p fp bytes hpath hid hnb hmt hnu hfp hfs
    have hp : required_string map "path" = Except.ok p := by
      unfold required_string
      rw [hpath]
      rfl
    have hob : optional_bool map "is_dir" = none := by
      unfold optional_bool
      rw [hid, Option.some_bind, hnb]
    have hou : optional_u64 map "mod_time" = none := by
      unfold optional_u64
      rw [hmt, Option.some_bind, hnu]
    have hrf : required_string map "file_path" = Except.ok fp := by
      unfold required_string
      rw [hfp]
    have hfpart : file_part env fp =
        ([Event.fileRead fp], .ok ((rustFileName fp).getD "file", bytes)) := by
      unfold file_part
      rw [hfs]
    rw [handle_put_file_eq t env map p hp]
    simp [hob, hou, hrf, hfpart, isDirParts, modTimeParts]
  · intro t env map v files ev parts ha hnstr hfiles hattach
    have hos : optional_string map "assets_dir_path" = none := by
      unfold optional_string
      rw [ha, Option.some_bind, hnstr]
    simp [handle_asset_upload, args_as_object, hos, hfiles, hattach]

/-- Witness for C10: a string-valued `is_dir` is ignored rather than
rejected, so the missing `file_path` is what gets reported. -/
theorem wrong_typed_optionals_ignored_witness :
    handle_put_file ⟨clientW, "/api/file/putFile", ToolKind.putFile⟩ envW
      (Json.obj [("path", Json.str "/data/x"), ("is_dir", Json.str "yes")]) =
      ([], .error (.invalidParams "missing or invalid `file_path`")) :=
  wrong_typed_optionals_ignored.1 ⟨clientW, "/api/file/putFile", ToolKind.putFile⟩ envW
    [("path", Json.str "/data/x"), ("is_dir", Json.str "yes")] (Json.str "yes") "/data/x"
    rfl rfl rfl rfl


/-- The only call of `post_json_value` is the built request. -/
theorem post_json_value_calls (c : SiyuanClient) (parse : String → Option Json)
    (endpoint : String) (body : Json) (net : HttpRequest → NetOutcome) (req : HttpRequest)
    (h : Event.httpCall req ∈ (post_json_value c parse endpoint body net).1) :
    req = mkRequest c endpoint (RequestBody.jsonBody body) := by
  simpa [post_json_value] using h

/-- The only call of `post_multipart_value` is the built request. -/
theorem post_multipart_value_calls (c : SiyuanClient) (parse : String → Option Json)
    (endpoint : String) (parts : List FormPart) (net : HttpRequest → NetOutcome)
    (req : HttpRequest)
    (h : Event.httpCall req ∈ (post_multipart_value c parse endpoint parts net).1) :
    req = mkRequest c endpoint (RequestBody.multipartBody parts) := by
  simpa [post_multipart_value] using h

/-- The only call of `post_json_file` is the built request. -/
theorem post_json_file_calls (c : SiyuanClient) (parseB : List Nat → Option Json)
    (endpoint : String) (body : Json) (net : HttpRequest → NetOutcomeB) (req : HttpRequest)
    (h : Event.httpCall req ∈ (post_json_file c parseB endpoint body net).1) :
    req = mkRequest c endpoint (RequestBody.jsonBody body) := by
  simpa [post_json_file] using h

/-- The asset-file loop performs no HTTP call, only file reads. -/
theorem attach_asset_parts_no_http (env : Env) (fps : List String) (req : HttpRequest) :
    Event.httpCall req ∉ (attach_asset_parts env fps).1 := by
  induction fps with
  | nil => simp [attach_asset_parts]
  | cons fp rest ih =>
    simp only [attach_asset_parts, file_part]
    cases henv : env.fs fp with
    | error e => simp
    | ok bytes =>
      cases hrest : attach_asset_parts env rest with
      | mk ev2 r =>
        rw [hrest] at ih
        cases r <;> simpa using fun h => ih h

/-- Every HTTP call a handler performs is a POST built by `mkRequest`
from the handler's own client and endpoint. -/
theorem handle_calls_shape (t : SiyuanTool) (env : Env) (args : Json) (req : HttpRequest)
    (h : Event.httpCall req ∈ (SiyuanTool.handle t env args).1) :
    ∃ b, req = mkRequest t.client t.endpoint b := by
  cases hk : t.kind with
  | json =>
    simp only [SiyuanTool.handle, hk] at h
    cases he : ensure_object args with
    | error e => simp [he] at h
    | ok body =>
      simp only [he] at h
      exact ⟨_, post_json_value_calls t.client env.parse t.endpoint body env.netT req h⟩
  | getFile =>
    simp only [SiyuanTool.handle, hk, handle_get_file] at h
    cases ha : args_as_object args with
    | error e => simp [ha] at h
    | ok map =>
      simp only [ha] at h
      cases hp : required_string map "path" with
      | error e => simp [hp] at h
      | ok p =>
        simp only [hp] at h
        exact ⟨_, post_json_file_calls t.client env.parseB t.endpoint
          (Json.obj [("path", Json.str p)]) env.netB req h⟩
  | assetUpload =>
    simp only [SiyuanTool.handle, hk, handle_asset_upload] at h
    cases ha : args_as_object args with
    | error e => simp [ha] at h
    | ok map =>
      simp only [ha] at h
      cases hf : string_array map "files" with
      | error e => simp [hf] at h
      | ok files =>
        simp only [hf] at h
        have hno := attach_asset_parts_no_http env files req
        cases hat : attach_asset_parts env files with
        | mk ev r =>
          rw [hat] at hno
          simp only [hat] at h
          cases r with
          | error e => simp at h; exact absurd h hno
          | ok parts =>
            simp at h
            rcases h with h | h
            · exact absurd h hno
            · exact ⟨_, post_multipart_value_calls t.client env.parse t.endpoint
                (FormPart.text "assetsDirPath"
                  ((optional_string map "assets_dir_path").getD "/assets/") :: parts)
                env.netT req (by simpa [post_multipart_value] using h)⟩
  | putFile =>
    simp only [SiyuanTool.handle, hk, handle_put_file] at h
    cases ha : args_as_object args with
    | error e => simp [ha] at h
    | ok map =>
      simp only [ha] at h
      cases hp : required_string map "path" with
      | error e => simp [hp] at h
      | ok p =>
        simp only [hp] at h
        cases hd : (optional_bool map "is_dir").getD false with
        | true =>
          simp only [hd, if_true] at h
          exact ⟨_, post_multipart_value_calls t.client env.parse t.endpoint _ env.netT req
            (by simpa [post_multipart_value] using h)⟩
        | false =>
          simp only [hd, Bool.false_eq_true, if_false] at h
          cases hfp : required_string map "file_path" with
          | error e => simp [hfp] at h
          | ok fp =>
            simp only [hfp] at h
            cases hread : env.fs fp with
            | error e => simp [file_part, hread] at h
            | ok bytes =>
              simp only [file_part, hread] at h
              simp at h
              exact ⟨_, post_multipart_value_calls t.client env.parse t.endpoint _ env.netT req
                (by simpa [post_multipart_value] using h)⟩

/-- Claim C9: the configured base URL is stored with trailing slashes
stripped, and every outbound call any handler performs is an HTTP POST
to the concatenation of that base URL with the tool's endpoint, carrying
an `Authorization: Token <token>` header exactly when a token is
configured; the same holds through full dispatch for the matched
registry entry's endpoint. -/
theorem outbound_request_shape :
    (∀ raw token, (SiyuanClient.new raw token).base_url = trimEndSlashes raw ∧
      (SiyuanClient.new raw token).token = token) ∧
    (∀ (t : SiyuanTool) (env : Env) (args : Json) (req : HttpRequest),
      Event.httpCall req ∈ (SiyuanTool.handle t env args).1 →
      req.method = "POST" ∧ req.url = t.client.base_url ++ t.endpoint ∧
      req.authHeader = t.client.token.map (fun tok => "Token " ++ tok)) ∧
    (∀ (client : SiyuanClient) (env : Env) (name : String) (args : Json)
        (req : HttpRequest) (spec : ToolSpec),
      registryLookup name = some spec →
      Event.httpCall req ∈ (handle_tool_call client env name args).1 →
      req.method = "POST" ∧ req.url = client.base_url ++ spec.endpoint ∧
      req.authHeader = client.token.map (fun tok => "Token " ++ tok)) := by
  refine ⟨fun raw token => ⟨rfl, rfl⟩, ?_, ?_⟩
  · intro t env args req h
    obtain ⟨b, hb⟩ := handle_calls_shape t env args req h
    subst hb
    exact ⟨rfl, rfl, rfl⟩
  · intro client env name args req spec hspec h
    rw [handle_tool_call, hspec] at h
    obtain ⟨b, hb⟩ := handle_calls_shape ⟨client, spec.endpoint, spec.kind⟩ env args req h
    subst hb
    exact ⟨rfl, rfl, rfl⟩

/-- Witness for C9: the SQL-query tool's single outbound request at a
concrete client. -/
theorem outbound_request_shape_witness :
    (mkRequest clientW "/api/query/sql"
        (RequestBody.jsonBody (Json.obj [("stmt", Json.str "SELECT 1")]))).method = "POST" ∧
    (mkRequest clientW "/api/query/sql"
        (RequestBody.jsonBody (Json.obj [("stmt", Json.str "SELECT 1")]))).url =
      clientW.base_url ++ "/api/query/sql" ∧
    (mkRequest clientW "/api/query/sql"
        (RequestBody.jsonBody (Json.obj [("stmt", Json.str "SELECT 1")]))).authHeader =
      clientW.token.map (fun tok => "Token " ++ tok) :=
  outbound_request_shape.2.1 ⟨clientW, "/api/query/sql", ToolKind.json⟩ envW
    (Json.obj [("stmt", Json.str "SELECT 1")])
    (mkRequest clientW "/api/query/sql"
      (RequestBody.jsonBody (Json.obj [("stmt", Json.str "SELECT 1")])))
    (List.mem_singleton.mpr rfl)


end Siyuan
